import Mathlib

/-!
Verification development for the msgpack trace-payload decoder in
`pkg/trace/pb/decoder.go`.

The wire stream is shallowly embedded as a list of already-tokenised
msgpack values (`WireVal`); each msgp reader primitive consumes tokens
from the front of the list.  Go's multiple-return convention
`(value, err)` is kept: a parser returns its value, an optional error,
and the remaining stream, because the Go callers assign the returned
value into the destination struct even when `err != nil`.  A Go runtime
panic (out-of-bounds slice indexing) is modelled by a distinct `crash`
result constructor.  Go `uint64`/`uint32` values are `Nat` with explicit
`% 2^w` reinterpretation where the code casts; `int64`/`int32` are `Int`.
Go maps are modelled as insertion-ordered association lists with
overwrite-on-existing-key (`mapPut`); a `nil` Go map is `Option.none`,
a non-nil map is `some` of its entry list.  IEEE doubles never need
arithmetic here, so float values are kept symbolic (`FVal`): a wire
double is identified by its bit pattern, and the Go conversions
`float64(int64)` / `float64(uint64)` are distinct symbolic injections.
-/

set_option autoImplicit false

/-- One tokenised msgpack wire value, as classified by `msgp.NextType`:
array header, map header, signed integer, unsigned integer, UTF-8
string, byte string, IEEE double (by bit pattern), or nil. -/
inductive WireVal where
  | arr (n : Nat)
  | map (n : Nat)
  | int (i : Int)
  | uint (u : Nat)
  | str (s : String)
  | bin (s : String)
  | float (bits : Nat)
  | nil
deriving DecidableEq, Repr

/-- Reader state: the remaining wire tokens (models `*msgp.Reader`). -/
abbrev RState := List WireVal

/-- Decode error kinds, following §7 of the design: `typeError` is
msgp's TypeError (TypeMismatch), `overflow` covers the explicit
`castInt64`/`castInt32` failures and msgp's unsigned-read overflow,
`indexOutOfRange` is the dictionary-index error (carrying the offending
index), `unsupportedDictEntry` the dictionary entry-type error,
`arityError` the 12-element span arity error, and `eof` an I/O error
from the underlying byte source (StreamError). -/
inductive DErr where
  | typeError
  | overflow
  | indexOutOfRange (i : Int)
  | unsupportedDictEntry
  | arityError
  | eof
deriving DecidableEq, Repr

/-- Symbolic IEEE double: a raw wire double (by bit pattern), or the Go
conversions `float64(int64)` / `float64(uint64)`.  No claim compares
float magnitudes, so values stay symbolic. -/
inductive FVal where
  | raw (bits : Nat)
  | fromInt (i : Int)
  | fromUint (u : Nat)
deriving DecidableEq, Repr

/-- Go `uint64(i)` on an in-range `int64`: two's-complement bit
reinterpretation. -/
def uint64ofInt (i : Int) : Nat := (i % (2 ^ 64 : Int)).toNat

/-- msgp `ReadArrayHeader`: an array-header token yields its declared
count; any other token is a TypeError, an exhausted stream an I/O
error.  Nothing is consumed on error. -/
def readArrayHeader : RState → Except DErr (Nat × RState)
  | .arr n :: rest => .ok (n, rest)
  | [] => .error .eof
  | _ => .error .typeError

/-- msgp `ReadMapHeader`, analogous to `readArrayHeader`. -/
def readMapHeader : RState → Except DErr (Nat × RState)
  | .map n :: rest => .ok (n, rest)
  | [] => .error .eof
  | _ => .error .typeError

/-- msgp `ReadInt` (64-bit platform int): a signed token yields its
value; an unsigned token is accepted when it fits in `int64`, else
overflows; the Go convention of returning `0` alongside the error is
kept because `parseStringDict` uses the value before checking the
error. -/
def readInt : RState → Int × Option DErr × RState
  | .int i :: rest => (i, none, rest)
  | .uint u :: rest =>
      if u < 2 ^ 63 then ((u : Int), none, rest) else (0, some .overflow, rest)
  | [] => (0, some .eof, [])
  | st => (0, some .typeError, st)

/-- Result of `parseStringDict`: the Go pair `(string, error)` plus the
remaining stream, or a Go runtime panic (`crash`) from indexing the
dictionary slice with a negative index. -/
inductive StrRes where
  | ret (v : String) (err : Option DErr) (st : RState)
  | crash
deriving DecidableEq, Repr

/-- Model of `parseStringDict` (decoder.go:46-52): reads an integer
index `i`; if `i >= len(dict)` it returns `""` with the index error
(note: checked before the read error); otherwise it returns `dict[i]`
together with whatever error the read produced.  The Go code never
checks `i < 0`, so a negative index reaches `dict[i]` and panics — the
`crash` case. -/
def parseStringDict (st : RState) (dict : List String) : StrRes :=
  match readInt st with
  | (i, e, st') =>
    if hge : (dict.length : Int) ≤ i then .ret "" (some (.indexOutOfRange i)) st'
    else if h : 0 ≤ i then
      .ret (dict.get ⟨i.toNat, by omega⟩) e st'
    else .crash

/-- Model of `parseFloat64` (decoder.go:57-89): a signed integer is
widened via `float64(int64)`, an unsigned via `float64(uint64)`, a wire
double is taken as-is; any other token is a TypeError.  The Go zero
`float64` returned on error is the zero bit pattern. -/
def parseFloat64 : RState → FVal × Option DErr × RState
  | .int i :: rest => (.fromInt i, none, rest)
  | .uint u :: rest => (.fromUint u, none, rest)
  | .float b :: rest => (.raw b, none, rest)
  | [] => (.raw 0, some .eof, [])
  | st => (.raw 0, some .typeError, st)

/-- Model of `castInt64` (decoder.go:96-102): an unsigned value above
`math.MaxInt64` is rejected (value forced to 0), else cast. -/
def castInt64 (v : Nat) : Int × Bool :=
  if v > 2 ^ 63 - 1 then (0, false) else ((v : Int), true)

/-- Model of `parseInt64` (decoder.go:107-136): a signed token is read
directly; an unsigned token is force-cast via `castInt64`, failing with
an overflow error when it exceeds `MaxInt64`; other tokens are
TypeErrors. -/
def parseInt64 : RState → Int × Option DErr × RState
  | .int i :: rest => (i, none, rest)
  | .uint u :: rest =>
      match castInt64 u with
      | (_, false) => (0, some .overflow, rest)
      | (i, true) => (i, none, rest)
  | [] => (0, some .eof, [])
  | st => (0, some .typeError, st)

/-- Model of `parseUint64` (decoder.go:143-166): an unsigned token is
read directly; a signed token is reinterpreted bit-for-bit via Go's
`uint64(i)` with no magnitude check; other tokens are TypeErrors. -/
def parseUint64 : RState → Nat × Option DErr × RState
  | .uint u :: rest => (u, none, rest)
  | .int i :: rest => (uint64ofInt i, none, rest)
  | [] => (0, some .eof, [])
  | st => (0, some .typeError, st)

/-- Model of `castInt32` (decoder.go:173-179): an unsigned value above
`math.MaxInt32` is rejected (value forced to 0), else cast. -/
def castInt32 (v : Nat) : Int × Bool :=
  if v > 2 ^ 31 - 1 then (0, false) else ((v : Int), true)

/-- Model of `parseInt32` (decoder.go:184-213): a signed token is read
via msgp `ReadInt32`, which range-checks against the 32-bit signed
bounds; an unsigned token is read via msgp `ReadUint32` (overflow above
`MaxUint32`) and then force-cast via `castInt32`; other tokens are
TypeErrors. -/
def parseInt32 : RState → Int × Option DErr × RState
  | .int i :: rest =>
      if -2 ^ 31 ≤ i ∧ i < 2 ^ 31 then (i, none, rest) else (0, some .overflow, rest)
  | .uint u :: rest =>
      if u < 2 ^ 32 then
        match castInt32 u with
        | (_, false) => (0, some .overflow, rest)
        | (i, true) => (i, none, rest)
      else (0, some .overflow, rest)
  | [] => (0, some .eof, [])
  | st => (0, some .typeError, st)

/-- The Span data model (§3): four strings, three unsigned 64-bit
identifiers, two signed 64-bit times, a signed 32-bit error flag, and
the Meta/Metrics maps.  A Go `nil` map is `none`; a non-nil map is
`some` of its insertion-ordered entry list.  The Go field `Type` is
spelt `Type'` because `Type` is reserved in Lean. -/
structure Span where
  Service : String
  Name : String
  Resource : String
  TraceID : Nat
  SpanID : Nat
  ParentID : Nat
  Start : Int
  Duration : Int
  Error : Int
  Meta : Option (List (String × String))
  Metrics : Option (List (String × FVal))
  Type' : String
deriving DecidableEq, Repr

/-- Go `new(Span)`: the zero Span (empty strings, zero numbers, nil
maps). -/
def newSpan : Span :=
  { Service := "", Name := "", Resource := "", TraceID := 0, SpanID := 0, ParentID := 0,
    Start := 0, Duration := 0, Error := 0, Meta := none, Metrics := none, Type' := "" }

/-- Go map store `m[k] = v` on the association-list model: overwrite
the existing entry for `k`, else append. -/
def mapPut {α : Type} : List (String × α) → String → α → List (String × α)
  | [], k, v => [(k, v)]
  | (k', v') :: rest, k, v =>
      if k' = k then (k, v) :: rest else (k', v') :: mapPut rest k v

/-- Result of a Meta/Metrics entry loop: the map contents so far, an
optional error and the remaining stream — or a panic, with the map
contents at the moment of the panic (the Go map is mutated in place, so
the caller's field still sees them). -/
inductive EntriesRes (α : Type) where
  | ret (m : List (String × α)) (err : Option DErr) (st : RState)
  | crash (m : List (String × α))
deriving DecidableEq, Repr

/-- The Meta entry loop (decoder.go:364-377): `n` times, decode a key
and a value via `parseStringDict` and store the pair; a failed parse
returns immediately, leaving the map as accumulated so far. -/
def decodeMetaEntries : Nat → RState → List String → List (String × String) →
    EntriesRes String
  | 0, st, _, m => .ret m none st
  | n + 1, st, dict, m =>
    match parseStringDict st dict with
    | .crash => .crash m
    | .ret _ (some e) st' => .ret m (some e) st'
    | .ret k none st' =>
      match parseStringDict st' dict with
      | .crash => .crash m
      | .ret _ (some e) st'' => .ret m (some e) st''
      | .ret v none st'' => decodeMetaEntries n st'' dict (mapPut m k v)

/-- The Metrics entry loop (decoder.go:391-404): keys via
`parseStringDict`, values via `parseFloat64`. -/
def decodeMetricsEntries : Nat → RState → List String → List (String × FVal) →
    EntriesRes FVal
  | 0, st, _, m => .ret m none st
  | n + 1, st, dict, m =>
    match parseStringDict st dict with
    | .crash => .crash m
    | .ret _ (some e) st' => .ret m (some e) st'
    | .ret k none st' =>
      match parseFloat64 st' with
      | (_, some e, st'') => .ret m (some e) st''
      | (v, none, st'') => decodeMetricsEntries n st'' dict (mapPut m k v)

/-- Result of decoding a whole Meta/Metrics field: the resulting map
field value (`none` = nil map), optional error and remaining stream, or
a panic with the field value at that moment. -/
inductive MapRes (α : Type) where
  | ret (m : Option (List (String × α))) (err : Option DErr) (st : RState)
  | crash (m : Option (List (String × α)))
deriving DecidableEq, Repr

/-- The Meta field decode (decoder.go:352-377): read the map header; if
the destination map is nil and the declared count is positive, allocate
a fresh map; else if it holds entries, delete them all in place; then
run the entry loop.  A header failure leaves the destination map
untouched. -/
def decodeMeta (st : RState) (dict : List String)
    (prior : Option (List (String × String))) : MapRes String :=
  match readMapHeader st with
  | .error e => .ret prior (some e) st
  | .ok (metaSize, st') =>
    let m0 : Option (List (String × String)) :=
      match prior with
      | none => if 0 < metaSize then some [] else none
      | some l => some (if 0 < l.length then [] else l)
    match m0 with
    | none => .ret none none st'
    | some l =>
      match decodeMetaEntries metaSize st' dict l with
      | .ret m e st'' => .ret (some m) e st''
      | .crash m => .crash (some m)

/-- The Metrics field decode (decoder.go:379-404), same reuse policy as
`decodeMeta`. -/
def decodeMetrics (st : RState) (dict : List String)
    (prior : Option (List (String × FVal))) : MapRes FVal :=
  match readMapHeader st with
  | .error e => .ret prior (some e) st
  | .ok (metricsSize, st') =>
    let m0 : Option (List (String × FVal)) :=
      match prior with
      | none => if 0 < metricsSize then some [] else none
      | some l => some (if 0 < l.length then [] else l)
    match m0 with
    | none => .ret none none st'
    | some l =>
      match decodeMetricsEntries metricsSize st' dict l with
      | .ret m e st'' => .ret (some m) e st''
      | .crash m => .crash (some m)

/-- Result of a span record decode: success, error, or panic; in every
case the (possibly partially overwritten) destination Span is carried,
because the Go method mutates `z` in place. -/
inductive SpanRes where
  | ok (z : Span) (st : RState)
  | err (e : DErr) (z : Span) (st : RState)
  | crash (z : Span)
deriving DecidableEq, Repr

/-- One string-field block of the Go span decoder:
`z.F, err = parseStringDict(...); if err != nil { return }`.  The field
is assigned the returned value even when the parse errs. -/
def stepStr (r : StrRes) (set : String → Span → Span) (z : Span)
    (k : Span → RState → SpanRes) : SpanRes :=
  match r with
  | .crash => .crash z
  | .ret v e st =>
    let z := set v z
    match e with
    | some e => .err e z st
    | none => k z st

/-- One numeric-field block of the Go span decoder (`parseUint64`,
`parseInt64`, `parseInt32` all return value-and-error pairs). -/
def stepVal {α : Type} (r : α × Option DErr × RState) (set : α → Span → Span) (z : Span)
    (k : Span → RState → SpanRes) : SpanRes :=
  let z := set r.1 z
  match r.2.1 with
  | some e => .err e z r.2.2
  | none => k z r.2.2

/-- One map-field block of the Go span decoder (Meta or Metrics). -/
def stepMap {α : Type} (r : MapRes α) (set : Option (List (String × α)) → Span → Span)
    (z : Span) (k : Span → RState → SpanRes) : SpanRes :=
  match r with
  | .crash m => .crash (set m z)
  | .ret m e st =>
    let z := set m z
    match e with
    | some e => .err e z st
    | none => k z st

/-- decoder.go:293. -/
def spanPropertyCount : Nat := 12

/-- Model of `Span.DecodeMsgArray` (decoder.go:296-411): read the
record's array header, require exactly 12 elements, then decode the 12
fields in wire order, assigning each into `z` as it is read and
returning at the first error. -/
def Span.DecodeMsgArray (st : RState) (dictionary : List String) (z : Span) : SpanRes :=
  match readArrayHeader st with
  | .error e => .err e z st
  | .ok (xsz, st) =>
    if xsz = spanPropertyCount then
      -- Service (0)
      stepStr (parseStringDict st dictionary) (fun v z => { z with Service := v }) z fun z st =>
      -- Name (1)
      stepStr (parseStringDict st dictionary) (fun v z => { z with Name := v }) z fun z st =>
      -- Resource (2)
      stepStr (parseStringDict st dictionary) (fun v z => { z with Resource := v }) z fun z st =>
      -- TraceID (3)
      stepVal (parseUint64 st) (fun v z => { z with TraceID := v }) z fun z st =>
      -- SpanID (4)
      stepVal (parseUint64 st) (fun v z => { z with SpanID := v }) z fun z st =>
      -- ParentID (5)
      stepVal (parseUint64 st) (fun v z => { z with ParentID := v }) z fun z st =>
      -- Start (6)
      stepVal (parseInt64 st) (fun v z => { z with Start := v }) z fun z st =>
      -- Duration (7)
      stepVal (parseInt64 st) (fun v z => { z with Duration := v }) z fun z st =>
      -- Error (8)
      stepVal (parseInt32 st) (fun v z => { z with Error := v }) z fun z st =>
      -- Meta (9)
      stepMap (decodeMeta st dictionary z.Meta) (fun m z => { z with Meta := m }) z fun z st =>
      -- Metrics (10)
      stepMap (decodeMetrics st dictionary z.Metrics) (fun m z => { z with Metrics := m }) z fun z st =>
      -- Type (11)
      stepStr (parseStringDict st dictionary) (fun v z => { z with Type' := v }) z fun z st =>
      .ok z st
    else .err .arityError z st

/-- The dictionary-reading loop of `Traces.DecodeMsgArray`
(decoder.go:225-257): `n` entries, each dispatched on the peeked wire
type — byte strings and UTF-8 strings are read (consuming the token)
into the entry, any unsupported type aborts the decode (the Go error
message also carries the entry index, omitted here).  The `NilType`
case (decoder.go:233-239) stores the empty string but never consumes
the token: `NextType` only peeks and the branch performs no read, so
the same nil is re-seen by every remaining iteration — the recursion
keeps the nil token at the front of the stream. -/
def readDict : Nat → RState → Except DErr (List String × RState)
  | 0, st => .ok ([], st)
  | _ + 1, [] => .error .eof
  | n + 1, .nil :: rest => (readDict n (.nil :: rest)).map fun p => ("" :: p.1, p.2)
  | n + 1, .bin s :: rest => (readDict n rest).map fun p => (s :: p.1, p.2)
  | n + 1, .str s :: rest => (readDict n rest).map fun p => (s :: p.1, p.2)
  | _ + 1, _ :: _ => .error .unsupportedDictEntry

/-- Go `Trace` is `[]*Span`: a `none` element is a nil span pointer. -/
abbrev Trace := List (Option Span)

/-- Go `Traces` is `[]Trace`. -/
abbrev Traces := List Trace

/-- Result of a trace-level decode: like `SpanRes` but carrying the
(possibly partially populated) destination value. -/
inductive TrRes (α : Type) where
  | ok (v : α) (st : RState)
  | err (e : DErr) (v : α) (st : RState)
  | crash (v : α)
deriving DecidableEq, Repr

/-- The per-trace span loop of `Traces.DecodeMsgArray`
(decoder.go:280-288), specialised to a freshly allocated trace buffer
(`make(Trace, n)`: every slot starts as a nil pointer, so `new(Span)`
is allocated for each).  On an error or panic the slots past the
failing one are still nil. -/
def decodeSpanSlots (dict : List String) : Nat → RState → TrRes Trace
  | 0, st => .ok [] st
  | n + 1, st =>
    match Span.DecodeMsgArray st dict newSpan with
    | .crash z => .crash (some z :: List.replicate n none)
    | .err e z st' => .err e (some z :: List.replicate n none) st'
    | .ok z st' =>
      match decodeSpanSlots dict n st' with
      | .ok l st'' => .ok (some z :: l) st''
      | .err e l st'' => .err e (some z :: l) st''
      | .crash l => .crash (some z :: l)

/-- The trace loop of `Traces.DecodeMsgArray` (decoder.go:269-289),
specialised to a freshly allocated batch buffer (`make(Traces, n)`:
every trace slot starts as a nil slice).  Each trace reads its own
array header; a header failure leaves that slot nil (the empty
trace). -/
def decodeTraceSlots (dict : List String) : Nat → RState → TrRes Traces
  | 0, st => .ok [] st
  | n + 1, st =>
    match readArrayHeader st with
    | .error e => .err e ([] :: List.replicate n []) st
    | .ok (k, st') =>
      match decodeSpanSlots dict k st' with
      | .crash tr => .crash (tr :: List.replicate n [])
      | .err e tr st'' => .err e (tr :: List.replicate n []) st''
      | .ok tr st'' =>
        match decodeTraceSlots dict n st'' with
        | .ok l st3 => .ok (tr :: l) st3
        | .err e l st3 => .err e (tr :: l) st3
        | .crash l => .crash (tr :: l)

/-- Model of `Traces.DecodeMsgArray` (decoder.go:216-291), specialised
to a nil destination batch (`cap` is 0 at every level, so the
capacity-reuse branches always allocate fresh buffers).  Note the Go
code reads the top-level array header with `_, err :=` — the declared
top-level element count is discarded without validation.  It then reads
the dictionary array and the traces array in sequence. -/
def Traces.DecodeMsgArray (st : RState) : TrRes Traces :=
  match readArrayHeader st with
  | .error e => .err e [] st
  | .ok (_, st) =>
    match readArrayHeader st with
    | .error e => .err e [] st
    | .ok (sz, st) =>
      match readDict sz st with
      | .error e => .err e [] st
      | .ok (dict, st) =>
        match readArrayHeader st with
        | .error e => .err e [] st
        | .ok (xsz, st) => decodeTraceSlots dict xsz st

/-- C1: for every dictionary `dict` and every index `i` read from the
wire with `0 ≤ i < len(dict)`, `parseStringDict` returns `dict[i]` with
no error; for every index `i ≥ len(dict)` it fails with the
index-out-of-range error. -/
theorem parseStringDict_bounds (dict : List String) (rest : RState) :
    (∀ (i : Nat) (h : i < dict.length),
        parseStringDict (.int i :: rest) dict = .ret (dict.get ⟨i, h⟩) none rest) ∧
    (∀ (j : Int), (dict.length : Int) ≤ j →
        parseStringDict (.int j :: rest) dict =
          .ret "" (some (.indexOutOfRange j)) rest) := by
  constructor
  · intro i h
    have h1 : ¬ ((dict.length : Int) ≤ (i : Int)) := by exact_mod_cast Nat.not_le.mpr h
    have h0 : (0 : Int) ≤ (i : Int) := Int.ofNat_nonneg i
    simp only [parseStringDict, readInt, dif_neg h1, dif_pos h0]
    congr 1
  · intro j hj
    simp only [parseStringDict, readInt, dif_pos hj]

/-- C1 witness: evaluated at the dictionary `["a", "b"]` with the
in-range index 1 and the out-of-range index 5. -/
theorem parseStringDict_bounds_witness :
    parseStringDict [.int 1] ["a", "b"] = .ret "b" none [] ∧
    parseStringDict [.int 5] ["a", "b"] = .ret "" (some (.indexOutOfRange 5)) [] :=
  ⟨(parseStringDict_bounds ["a", "b"] []).1 1 (by decide),
   (parseStringDict_bounds ["a", "b"] []).2 5 (by decide)⟩

/-- C2: `parseUint64` decodes an unsigned wire integer `u` to `u`, and
a signed wire integer `i` to its two's-complement bit pattern
reinterpreted as unsigned (`i % 2^64`) with no magnitude check; it
fails on neither, and the signed value `-1` decodes to
`18446744073709551615 = 2^64 - 1`. -/
theorem parseUint64_reinterpret :
    (∀ (u : Nat) (rest : RState), u < 2 ^ 64 →
        parseUint64 (.uint u :: rest) = (u, none, rest)) ∧
    (∀ (i : Int) (rest : RState), -2 ^ 63 ≤ i → i < 2 ^ 63 →
        parseUint64 (.int i :: rest) = (((i % 2 ^ 64).toNat : Nat), none, rest)) ∧
    parseUint64 [.int (-1)] = (18446744073709551615, none, []) := by
  refine ⟨fun u rest _ => rfl, fun i rest _ _ => rfl, by decide⟩

/-- C2 witness: evaluated at the unsigned value 7 and the signed value
-1. -/
theorem parseUint64_reinterpret_witness :
    parseUint64 [.uint 7] = (7, none, []) ∧
    parseUint64 [.int (-1)] = (((-1 : Int) % 2 ^ 64).toNat, none, []) :=
  ⟨parseUint64_reinterpret.1 7 [] (by norm_num),
   parseUint64_reinterpret.2.1 (-1) [] (by norm_num) (by norm_num)⟩

/-- C3: `parseInt64` fails with an overflow error on an unsigned wire
integer above `2^63 - 1` and returns the equal signed value otherwise;
`parseInt32` analogously fails with an overflow error on an unsigned
wire integer above `2^31 - 1` and returns the equal signed value
otherwise — overflow exactly when the unsigned value exceeds the signed
maximum of the target width. -/
theorem parseInt_overflow_bounds :
    (∀ (u : Nat) (rest : RState), u < 2 ^ 64 →
        (2 ^ 63 - 1 < u → parseInt64 (.uint u :: rest) = (0, some .overflow, rest)) ∧
        (u ≤ 2 ^ 63 - 1 → parseInt64 (.uint u :: rest) = ((u : Int), none, rest))) ∧
    (∀ (u : Nat) (rest : RState),
        (2 ^ 31 - 1 < u → parseInt32 (.uint u :: rest) = (0, some .overflow, rest)) ∧
        (u ≤ 2 ^ 31 - 1 → parseInt32 (.uint u :: rest) = ((u : Int), none, rest))) := by
  constructor
  · intro u rest _
    constructor
    · intro h
      simp only [parseInt64, castInt64, if_pos h]
    · intro h
      simp only [parseInt64, castInt64, if_neg (Nat.not_lt.mpr h)]
  · intro u rest
    constructor
    · intro h
      by_cases h32 : u < 2 ^ 32
      · simp only [parseInt32, if_pos h32, castInt32, if_pos h]
      · simp only [parseInt32, if_neg h32]
    · intro h
      have h32 : u < 2 ^ 32 := by omega
      simp only [parseInt32, if_pos h32, castInt32, if_neg (Nat.not_lt.mpr h)]

/-- C3 witness: evaluated at `2^63` (overflows int64), `5` (fits
int64), `2^31` (overflows int32) and `5` (fits int32). -/
theorem parseInt_overflow_bounds_witness :
    parseInt64 [.uint (2 ^ 63)] = (0, some .overflow, []) ∧
    parseInt64 [.uint 5] = (5, none, []) ∧
    parseInt32 [.uint (2 ^ 31)] = (0, some .overflow, []) ∧
    parseInt32 [.uint 5] = (5, none, []) :=
  ⟨(parseInt_overflow_bounds.1 (2 ^ 63) [] (by norm_num)).1 (by norm_num),
   (parseInt_overflow_bounds.1 5 [] (by norm_num)).2 (by norm_num),
   (parseInt_overflow_bounds.2 (2 ^ 31) []).1 (by norm_num),
   (parseInt_overflow_bounds.2 5 []).2 (by norm_num)⟩

/-- C4: a span-record wire array whose declared element count is not 12
makes `Span.DecodeMsgArray` fail with the arity error before reading
any field: the remaining stream is exactly what followed the header and
the destination Span is returned with every field unchanged. -/
theorem span_arity_frame (n : Nat) (rest : RState) (dict : List String) (z : Span)
    (h : n ≠ 12) :
    Span.DecodeMsgArray (.arr n :: rest) dict z = .err .arityError z rest := by
  simp [Span.DecodeMsgArray, readArrayHeader, spanPropertyCount, h]

/-- C4 witness: a 3-element record header with a recycled, fully
populated destination Span. -/
theorem span_arity_frame_witness :
    Span.DecodeMsgArray [.arr 3, .int 0] ["a"]
      { Service := "s", Name := "n", Resource := "r", TraceID := 1, SpanID := 2,
        ParentID := 3, Start := 4, Duration := 5, Error := 6,
        Meta := some [("k", "v")], Metrics := none, Type' := "t" }
    = .err .arityError
      { Service := "s", Name := "n", Resource := "r", TraceID := 1, SpanID := 2,
        ParentID := 3, Start := 4, Duration := 5, Error := 6,
        Meta := some [("k", "v")], Metrics := none, Type' := "t" } [.int 0] :=
  span_arity_frame 3 [.int 0] ["a"] _ (by decide)

/-- C6 (code bug): the claim requires a negative wire index to fail
with an index-out-of-range error, but `parseStringDict` only checks the
upper bound — a negative index reaches `dict[i]` and the Go runtime
panics with an out-of-bounds slice access.  Evaluating the model of the
code at the failing input `dict = ["a"]`, wire index `-1`: the decode
panics (`crash`) instead of returning an error. -/
theorem parseStringDict_negative_panics :
    parseStringDict [.int (-1)] ["a"] = .crash := by decide

/-- C5: for a Meta/Metrics decode whose map header reads successfully,
any previously held entries are removed before repopulation — decoding
into a map with arbitrary prior contents gives exactly the same outcome
as decoding into an empty map, so afterwards the map holds exactly the
new payload's pairs and no prior key; and a previously unset (nil) map
with a positive wire-declared entry count behaves as a freshly
allocated empty map. -/
theorem meta_metrics_no_leak (st : RState) (dict : List String) (n : Nat) (st1 : RState)
    (hdr : readMapHeader st = .ok (n, st1)) :
    (∀ (m : List (String × String)),
        decodeMeta st dict (some m) = decodeMeta st dict (some [])) ∧
    (0 < n → decodeMeta st dict none = decodeMeta st dict (some [])) ∧
    (∀ (m : List (String × FVal)),
        decodeMetrics st dict (some m) = decodeMetrics st dict (some [])) ∧
    (0 < n → decodeMetrics st dict none = decodeMetrics st dict (some [])) := by
  refine ⟨fun m => ?_, fun hn => ?_, fun m => ?_, fun hn => ?_⟩
  · simp only [decodeMeta, hdr]
    cases m <;> simp
  · simp only [decodeMeta, hdr, if_pos hn]
    simp
  · simp only [decodeMetrics, hdr]
    cases m <;> simp
  · simp only [decodeMetrics, hdr, if_pos hn]
    simp

/-- C5 witness: a recycled Meta holding `{"a": "1", "b": "2"}` decoded
across a payload whose Meta has the single entry `("k", "v")` ends up
holding exactly that one entry. -/
theorem meta_metrics_no_leak_witness :
    decodeMeta [.map 1, .int 0, .int 1] ["k", "v"] (some [("a", "1"), ("b", "2")])
      = decodeMeta [.map 1, .int 0, .int 1] ["k", "v"] (some []) ∧
    decodeMeta [.map 1, .int 0, .int 1] ["k", "v"] (some [])
      = .ret (some [("k", "v")]) none [] :=
  ⟨(meta_metrics_no_leak [.map 1, .int 0, .int 1] ["k", "v"] 1 [.int 0, .int 1] rfl).1
      [("a", "1"), ("b", "2")],
   by decide⟩

/-- C7 (code bug): the claim — and the code's own comment, which says a
nil entry is replaced by the empty string for downstream consumers —
requires each dictionary entry to be decoded by its own wire type, but
the source's `NilType` branch only peeks: the nil token is never
consumed, so every remaining entry re-reads the same nil and is filled
with the empty string, and the traces array header then hits the
leftover nil and fails with a TypeError, aborting the whole decode.
Evaluated at the failing input: the dictionary `[nil, str "y"]` decodes
to `["", ""]` — the string entry `"y"` is never decoded — with the
stream not advanced past the nil, and the whole batch decode fails. -/
theorem dict_nil_entry_stalls :
    readDict 2 [.nil, .str "y", .arr 0] = .ok (["", ""], [.nil, .str "y", .arr 0]) ∧
    Traces.DecodeMsgArray [.arr 2, .arr 2, .nil, .str "y", .arr 0]
      = .err .typeError [] [.nil, .str "y", .arr 0] ∧
    ("" : String) ≠ "y" :=
  ⟨rfl, rfl, by decide⟩

/-- C8: the end-to-end example — dictionary `["web", "GET /"]`, one
trace with the single span record `[0,1,0, 1,2,0, 1000,500,0, {}, {},
1]` — decodes without error to one trace with one span whose fields
are Service="web", Name="GET /", Resource="web", TraceID=1, SpanID=2,
ParentID=0, Start=1000, Duration=500, Error=0, Meta and Metrics empty
(nil maps), Type="GET /", with the input fully consumed. -/
theorem end_to_end_example :
    Traces.DecodeMsgArray
      [.arr 2,
       .arr 2, .str "web", .str "GET /",
       .arr 1,
       .arr 1,
       .arr 12, .int 0, .int 1, .int 0, .int 1, .int 2, .int 0,
       .int 1000, .int 500, .int 0, .map 0, .map 0, .int 1]
    = .ok [[some { Service := "web", Name := "GET /", Resource := "web",
                   TraceID := 1, SpanID := 2, ParentID := 0,
                   Start := 1000, Duration := 500, Error := 0,
                   Meta := none, Metrics := none, Type' := "GET /" }]] [] := by
  decide

/-- C9 counterexample: the claim says a top-level array with a declared
element count other than 2 does not decode successfully, but the code
reads and discards the top-level count — the payload declaring 3
top-level elements (followed by an empty dictionary and an empty traces
array) decodes successfully to the empty batch. -/
theorem top_arity_counterexample :
    Traces.DecodeMsgArray [.arr 3, .arr 0, .arr 0] = .ok [] [] ∧ (3 : Nat) ≠ 2 := by
  decide

/-- C9 (amended): the top-level decode requires the first wire value to
be an array header, but its declared element count is read and
discarded without validation — decoding proceeds identically for every
declared top-level count, then reads the dictionary and the traces in
sequence. -/
theorem top_header_count_ignored (n m : Nat) (rest : RState) :
    Traces.DecodeMsgArray (.arr n :: rest) = Traces.DecodeMsgArray (.arr m :: rest) := by
  simp [Traces.DecodeMsgArray, readArrayHeader]

/-- C10 counterexample: the claim says that when a span decode fails at
field `k`, field `k` and every later field retain their prior values —
but the Go multi-assignment writes the parser's returned value into the
failing field before the error is checked.  Concretely: a recycled Span
with `Service = "x"`, an empty dictionary, and a record whose first
field is the out-of-range index 0 fails at field 0, yet `Service` ends
up `""` (the error-path return value), not the prior `"x"`. -/
theorem span_field_retain_counterexample :
    Span.DecodeMsgArray [.arr 12, .int 0] []
      { Service := "x", Name := "x", Resource := "x", TraceID := 7, SpanID := 7,
        ParentID := 7, Start := 7, Duration := 7, Error := 7,
        Meta := some [("k", "v")], Metrics := none, Type' := "x" }
    = .err (.indexOutOfRange 0)
      { Service := "", Name := "x", Resource := "x", TraceID := 7, SpanID := 7,
        ParentID := 7, Start := 7, Duration := 7, Error := 7,
        Meta := some [("k", "v")], Metrics := none, Type' := "x" } [] ∧
    ("" : String) ≠ "x" := by
  decide

/-- C10 (amended): when a span decode fails (returns an error) at field
`k` after the arity check, every field preceding `k` holds the value
decoded from the new payload, every field after `k` retains its prior
value, and field `k` itself is overwritten with the failing parser's
error-path return value (for Meta/Metrics this is the map produced by
`decodeMeta`/`decodeMetrics`: untouched on a header failure, cleared
and partially repopulated on an entry failure).  One conjunct per
field, with the successful prefix as hypotheses. -/
theorem span_partial_write_on_failure
    (z : Span) (dict : List String) (st0 st1 : RState)
    (hdr : readArrayHeader st0 = .ok (12, st1)) :
    (∀ v0 e s2, parseStringDict st1 dict = .ret v0 (some e) s2 →
        Span.DecodeMsgArray st0 dict z = .err e { z with Service := v0 } s2) ∧
    (∀ v0 s2 v1 e s3,
        parseStringDict st1 dict = .ret v0 none s2 →
        parseStringDict s2 dict = .ret v1 (some e) s3 →
        Span.DecodeMsgArray st0 dict z =
          .err e { z with Service := v0, Name := v1 } s3) ∧
    (∀ v0 s2 v1 s3 v2 e s4,
        parseStringDict st1 dict = .ret v0 none s2 →
        parseStringDict s2 dict = .ret v1 none s3 →
        parseStringDict s3 dict = .ret v2 (some e) s4 →
        Span.DecodeMsgArray st0 dict z =
          .err e { z with Service := v0, Name := v1, Resource := v2 } s4) ∧
    (∀ v0 s2 v1 s3 v2 s4 u3 e s5,
        parseStringDict st1 dict = .ret v0 none s2 →
        parseStringDict s2 dict = .ret v1 none s3 →
        parseStringDict s3 dict = .ret v2 none s4 →
        parseUint64 s4 = (u3, some e, s5) →
        Span.DecodeMsgArray st0 dict z =
          .err e { z with Service := v0, Name := v1, Resource := v2,
                          TraceID := u3 } s5) ∧
    (∀ v0 s2 v1 s3 v2 s4 u3 s5 u4 e s6,
        parseStringDict st1 dict = .ret v0 none s2 →
        parseStringDict s2 dict = .ret v1 none s3 →
        parseStringDict s3 dict = .ret v2 none s4 →
        parseUint64 s4 = (u3, none, s5) →
        parseUint64 s5 = (u4, some e, s6) →
        Span.DecodeMsgArray st0 dict z =
          .err e { z with Service := v0, Name := v1, Resource := v2,
                          TraceID := u3, SpanID := u4 } s6) ∧
    (∀ v0 s2 v1 s3 v2 s4 u3 s5 u4 s6 u5 e s7,
        parseStringDict st1 dict = .ret v0 none s2 →
        parseStringDict s2 dict = .ret v1 none s3 →
        parseStringDict s3 dict = .ret v2 none s4 →
        parseUint64 s4 = (u3, none, s5) →
        parseUint64 s5 = (u4, none, s6) →
        parseUint64 s6 = (u5, some e, s7) →
        Span.DecodeMsgArray st0 dict z =
          .err e { z with Service := v0, Name := v1, Resource := v2,
                          TraceID := u3, SpanID := u4, ParentID := u5 } s7) ∧
    (∀ v0 s2 v1 s3 v2 s4 u3 s5 u4 s6 u5 s7 i6 e s8,
        parseStringDict st1 dict = .ret v0 none s2 →
        parseStringDict s2 dict = .ret v1 none s3 →
        parseStringDict s3 dict = .ret v2 none s4 →
        parseUint64 s4 = (u3, none, s5) →
        parseUint64 s5 = (u4, none, s6) →
        parseUint64 s6 = (u5, none, s7) →
        parseInt64 s7 = (i6, some e, s8) →
        Span.DecodeMsgArray st0 dict z =
          .err e { z with Service := v0, Name := v1, Resource := v2,
                          TraceID := u3, SpanID := u4, ParentID := u5,
                          Start := i6 } s8) ∧
    (∀ v0 s2 v1 s3 v2 s4 u3 s5 u4 s6 u5 s7 i6 s8 i7 e s9,
        parseStringDict st1 dict = .ret v0 none s2 →
        parseStringDict s2 dict = .ret v1 none s3 →
        parseStringDict s3 dict = .ret v2 none s4 →
        parseUint64 s4 = (u3, none, s5) →
        parseUint64 s5 = (u4, none, s6) →
        parseUint64 s6 = (u5, none, s7) →
        parseInt64 s7 = (i6, none, s8) →
        parseInt64 s8 = (i7, some e, s9) →
        Span.DecodeMsgArray st0 dict z =
          .err e { z with Service := v0, Name := v1, Resource := v2,
                          TraceID := u3, SpanID := u4, ParentID := u5,
                          Start := i6, Duration := i7 } s9) ∧
    (∀ v0 s2 v1 s3 v2 s4 u3 s5 u4 s6 u5 s7 i6 s8 i7 s9 i8 e s10,
        parseStringDict st1 dict = .ret v0 none s2 →
        parseStringDict s2 dict = .ret v1 none s3 →
        parseStringDict s3 dict = .ret v2 none s4 →
        parseUint64 s4 = (u3, none, s5) →
        parseUint64 s5 = (u4, none, s6) →
        parseUint64 s6 = (u5, none, s7) →
        parseInt64 s7 = (i6, none, s8) →
        parseInt64 s8 = (i7, none, s9) →
        parseInt32 s9 = (i8, some e, s10) →
        Span.DecodeMsgArray st0 dict z =
          .err e { z with Service := v0, Name := v1, Resource := v2,
                          TraceID := u3, SpanID := u4, ParentID := u5,
                          Start := i6, Duration := i7, Error := i8 } s10) ∧
    (∀ v0 s2 v1 s3 v2 s4 u3 s5 u4 s6 u5 s7 i6 s8 i7 s9 i8 s10 m9 e s11,
        parseStringDict st1 dict = .ret v0 none s2 →
        parseStringDict s2 dict = .ret v1 none s3 →
        parseStringDict s3 dict = .ret v2 none s4 →
        parseUint64 s4 = (u3, none, s5) →
        parseUint64 s5 = (u4, none, s6) →
        parseUint64 s6 = (u5, none, s7) →
        parseInt64 s7 = (i6, none, s8) →
        parseInt64 s8 = (i7, none, s9) →
        parseInt32 s9 = (i8, none, s10) →
        decodeMeta s10 dict z.Meta = .ret m9 (some e) s11 →
        Span.DecodeMsgArray st0 dict z =
          .err e { z with Service := v0, Name := v1, Resource := v2,
                          TraceID := u3, SpanID := u4, ParentID := u5,
                          Start := i6, Duration := i7, Error := i8,
                          Meta := m9 } s11) ∧
    (∀ v0 s2 v1 s3 v2 s4 u3 s5 u4 s6 u5 s7 i6 s8 i7 s9 i8 s10 m9 s11 m10 e s12,
        parseStringDict st1 dict = .ret v0 none s2 →
        parseStringDict s2 dict = .ret v1 none s3 →
        parseStringDict s3 dict = .ret v2 none s4 →
        parseUint64 s4 = (u3, none, s5) →
        parseUint64 s5 = (u4, none, s6) →
        parseUint64 s6 = (u5, none, s7) →
        parseInt64 s7 = (i6, none, s8) →
        parseInt64 s8 = (i7, none, s9) →
        parseInt32 s9 = (i8, none, s10) →
        decodeMeta s10 dict z.Meta = .ret m9 none s11 →
        decodeMetrics s11 dict z.Metrics = .ret m10 (some e) s12 →
        Span.DecodeMsgArray st0 dict z =
          .err e { z with Service := v0, Name := v1, Resource := v2,
                          TraceID := u3, SpanID := u4, ParentID := u5,
                          Start := i6, Duration := i7, Error := i8,
                          Meta := m9, Metrics := m10 } s12) ∧
    (∀ v0 s2 v1 s3 v2 s4 u3 s5 u4 s6 u5 s7 i6 s8 i7 s9 i8 s10 m9 s11 m10 s12 v11 e s13,
        parseStringDict st1 dict = .ret v0 none s2 →
        parseStringDict s2 dict = .ret v1 none s3 →
        parseStringDict s3 dict = .ret v2 none s4 →
        parseUint64 s4 = (u3, none, s5) →
        parseUint64 s5 = (u4, none, s6) →
        parseUint64 s6 = (u5, none, s7) →
        parseInt64 s7 = (i6, none, s8) →
        parseInt64 s8 = (i7, none, s9) →
        parseInt32 s9 = (i8, none, s10) →
        decodeMeta s10 dict z.Meta = .ret m9 none s11 →
        decodeMetrics s11 dict z.Metrics = .ret m10 none s12 →
        parseStringDict s12 dict = .ret v11 (some e) s13 →
        Span.DecodeMsgArray st0 dict z =
          .err e { z with Service := v0, Name := v1, Resource := v2,
                          TraceID := u3, SpanID := u4, ParentID := u5,
                          Start := i6, Duration := i7, Error := i8,
                          Meta := m9, Metrics := m10, Type' := v11 } s13) := by
  refine ⟨?_, ?_, ?_, ?_, ?_, ?_, ?_, ?_, ?_, ?_, ?_, ?_⟩
  · intro v0 e s2 h0
    simp [Span.DecodeMsgArray, stepStr, stepVal, stepMap, spanPropertyCount, hdr, h0]
  · intro v0 s2 v1 e s3 h0 h1
    simp [Span.DecodeMsgArray, stepStr, stepVal, stepMap, spanPropertyCount, hdr, h0, h1]
  · intro v0 s2 v1 s3 v2 e s4 h0 h1 h2
    simp [Span.DecodeMsgArray, stepStr, stepVal, stepMap, spanPropertyCount, hdr, h0, h1,
      h2]
  · intro v0 s2 v1 s3 v2 s4 u3 e s5 h0 h1 h2 h3
    simp [Span.DecodeMsgArray, stepStr, stepVal, stepMap, spanPropertyCount, hdr, h0, h1,
      h2, h3]
  · intro v0 s2 v1 s3 v2 s4 u3 s5 u4 e s6 h0 h1 h2 h3 h4
    simp [Span.DecodeMsgArray, stepStr, stepVal, stepMap, spanPropertyCount, hdr, h0, h1,
      h2, h3, h4]
  · intro v0 s2 v1 s3 v2 s4 u3 s5 u4 s6 u5 e s7 h0 h1 h2 h3 h4 h5
    simp [Span.DecodeMsgArray, stepStr, stepVal, stepMap, spanPropertyCount, hdr, h0, h1,
      h2, h3, h4, h5]
  · intro v0 s2 v1 s3 v2 s4 u3 s5 u4 s6 u5 s7 i6 e s8 h0 h1 h2 h3 h4 h5 h6
    simp [Span.DecodeMsgArray, stepStr, stepVal, stepMap, spanPropertyCount, hdr, h0, h1,
      h2, h3, h4, h5, h6]
  · intro v0 s2 v1 s3 v2 s4 u3 s5 u4 s6 u5 s7 i6 s8 i7 e s9 h0 h1 h2 h3 h4 h5 h6 h7
    simp [Span.DecodeMsgArray, stepStr, stepVal, stepMap, spanPropertyCount, hdr, h0, h1,
      h2, h3, h4, h5, h6, h7]
  · intro v0 s2 v1 s3 v2 s4 u3 s5 u4 s6 u5 s7 i6 s8 i7 s9 i8 e s10 h0 h1 h2 h3 h4 h5 h6
      h7 h8
    simp [Span.DecodeMsgArray, stepStr, stepVal, stepMap, spanPropertyCount, hdr, h0, h1,
      h2, h3, h4, h5, h6, h7, h8]
  · intro v0 s2 v1 s3 v2 s4 u3 s5 u4 s6 u5 s7 i6 s8 i7 s9 i8 s10 m9 e s11 h0 h1 h2 h3 h4
      h5 h6 h7 h8 h9
    simp [Span.DecodeMsgArray, stepStr, stepVal, stepMap, spanPropertyCount, hdr, h0, h1,
      h2, h3, h4, h5, h6, h7, h8, h9]
  · intro v0 s2 v1 s3 v2 s4 u3 s5 u4 s6 u5 s7 i6 s8 i7 s9 i8 s10 m9 s11 m10 e s12 h0 h1
      h2 h3 h4 h5 h6 h7 h8 h9 h10
    simp [Span.DecodeMsgArray, stepStr, stepVal, stepMap, spanPropertyCount, hdr, h0, h1,
      h2, h3, h4, h5, h6, h7, h8, h9, h10]
  · intro v0 s2 v1 s3 v2 s4 u3 s5 u4 s6 u5 s7 i6 s8 i7 s9 i8 s10 m9 s11 m10 s12 v11 e s13
      h0 h1 h2 h3 h4 h5 h6 h7 h8 h9 h10 h11
    simp [Span.DecodeMsgArray, stepStr, stepVal, stepMap, spanPropertyCount, hdr, h0, h1,
      h2, h3, h4, h5, h6, h7, h8, h9, h10, h11]

/-- C10 amended-claim witness: a record failing at field 0 with the
out-of-range index 5 against the one-entry dictionary, applied to a
recycled Span — the failing field is overwritten with `""` and every
other field keeps its prior value. -/
theorem span_partial_write_on_failure_witness :
    Span.DecodeMsgArray [.arr 12, .int 5] ["a"]
      { Service := "old", Name := "n", Resource := "r", TraceID := 1, SpanID := 2,
        ParentID := 3, Start := 4, Duration := 5, Error := 6,
        Meta := none, Metrics := none, Type' := "t" }
    = .err (.indexOutOfRange 5)
      { Service := "", Name := "n", Resource := "r", TraceID := 1, SpanID := 2,
        ParentID := 3, Start := 4, Duration := 5, Error := 6,
        Meta := none, Metrics := none, Type' := "t" } [] :=
  (span_partial_write_on_failure
      { Service := "old", Name := "n", Resource := "r", TraceID := 1, SpanID := 2,
        ParentID := 3, Start := 4, Duration := 5, Error := 6,
        Meta := none, Metrics := none, Type' := "t" }
      ["a"] [.arr 12, .int 5] [.int 5] rfl).1 "" (.indexOutOfRange 5) [] (by decide)
